import Mathlib

/-!
Shallow embedding of the DiyCrafts-Bot-Api payment core.

Sources embedded here:
* `payment_api.py` — the Flask webhook handlers `prepare` (route `/click-api/prepare`)
  and `complete` (route `/click-api/complete`), together with the `orders` table they
  read and write.
* `fiscal.py` — `create_fiscal_item`, the fiscal line-item constructor.
* `bot.py` — the admin price-entry handler `process_admin_price` and the client
  confirmation handler `client_accept_order`, plus the product catalog
  `products_data`.

Modelling conventions:
* The `orders` table is a `List Order`; SQL `UPDATE ... WHERE merchant_trans_id=%s`
  maps every matching row, `SELECT ... fetchone()` is `List.find?` (first match),
  `INSERT` appends, `cursor.rowcount` is the length of the filtered list.
  Nullable columns are `Option` fields; `is_paid INTEGER DEFAULT 0` is an `Int`.
* Python `float` money values are embedded as exact rationals `ℚ` (the float
  literal `1.12` is written `112/100`); Python's `round` (banker's rounding,
  half to even) is `pythonRound`.
* `hashlib.md5(...).hexdigest()` and Python's `str()` on a parsed float are kept
  abstract as the fields `md5` and `floatRepr` of an `Env`, since the handlers only
  compose and compare their outputs.  `SECRET_KEY` is the `secretKey` field.
* HTTP/JSON error envelopes are modelled by their protocol `error` code as an `Int`
  (the source serialises it as a decimal string, e.g. `"-8"`); `error_note` texts,
  logging and Telegram notifications are not modelled.  Outbound POSTs (invoice
  creation, fiscal submission) are recorded in the result (payload contents and
  whether the submission was attempted); their network outcome never influences
  the database writes in the source, and is not modelled.
* Handlers are split at the point where all field/signature validation has
  succeeded (`prepareAfterChecks`, `completeAfterChecks`); the wrapper performs
  exactly the source's `action` and `sign_string` checks.  Requests are modelled
  from the point where every required form field is present and `amount` parsed
  (the earlier `Missing field` / float-conversion branches both answer `-8` and
  touch nothing).
-/

namespace DiyCrafts

attribute [local semireducible] Rat.mul Rat.add Rat.sub Rat.inv Rat.ofScientific

/-- Floor of a rational, written so that it evaluates by kernel reduction. -/
def ratFloor (q : ℚ) : ℤ := q.num.fdiv q.den

/-- Python's built-in `round` to an integer: round half to even (banker's rounding). -/
def pythonRound (q : ℚ) : ℤ :=
  let f := ratFloor q
  let r := q - f
  if r < 1/2 then f
  else if 1/2 < r then f + 1
  else if 2 ∣ f then f else f + 1

/-- The `CommissionInfo` dictionary of a catalog entry (`bot.py` 162-208): `{"TIN": ...}`. -/
structure Commission where
  TIN : String
deriving DecidableEq, Repr

/-- One entry of the fiscal product catalog (`bot.py` 162-208). -/
structure ProductInfo where
  SPIC : String
  PackageCode : String
  CommissionInfo : Commission
deriving DecidableEq, Repr

/-- The product catalog `products_data` (`bot.py` lines 162-208); `fiscal.py` imports the
same dictionary from `products.py`.  Keys are the product names. -/
def products_data : List (String × ProductInfo) :=
  [ ("Кружка",   ⟨"06912001036000000", "1184747", ⟨"307022362"⟩⟩),
    ("Брелок",   ⟨"07117001015000000", "1156259", ⟨"307022362"⟩⟩),
    ("Кепка",    ⟨"06506001022000000", "1324746", ⟨"307022362"⟩⟩),
    ("Визитка",  ⟨"04911001003000000", "1156221", ⟨"307022362"⟩⟩),
    ("Футболка", ⟨"06109001001000000", "1124331", ⟨"307022362"⟩⟩),
    ("Худи",     ⟨"06212001012000000", "1238867", ⟨"307022362"⟩⟩),
    ("Пазл",     ⟨"04811001019000000", "1748791", ⟨"307022362"⟩⟩),
    ("Камень",   ⟨"04911001017000000", "1156234", ⟨"307022362"⟩⟩),
    ("Стакан",   ⟨"07013001008000000", "1345854", ⟨"307022362"⟩⟩) ]

/-- A fiscal line item as built by `create_fiscal_item` (`fiscal.py` lines 19-29). -/
structure FiscalItem where
  Name : String
  SPIC : String
  PackageCode : String
  GoodPrice : ℚ
  Price : ℚ
  Amount : Int
  VAT : ℤ
  VATPercent : Nat
  CommissionInfo : Commission
deriving DecidableEq, Repr

/-- `fiscal.py` lines 4-30, `create_fiscal_item(product_name, quantity, unit_price)`.
`none` models the `ValueError` raised when `products_data` has no entry for
`product_name`.  `price_total = unit_price * quantity`;
`vat = round((price_total / 1.12) * 0.12)`. -/
def create_fiscal_item (product_name : String) (quantity : Int) (unit_price : ℚ) :
    Option FiscalItem :=
  match products_data.find? (fun p => p.1 == product_name) with
  | none => none
  | some p =>
    let price_total := unit_price * (quantity : ℚ)
    let vat := pythonRound (price_total / (112/100) * (12/100))
    some { Name := product_name
           SPIC := p.2.SPIC
           PackageCode := p.2.PackageCode
           GoodPrice := unit_price
           Price := price_total
           Amount := quantity
           VAT := vat
           VATPercent := 12
           CommissionInfo := p.2.CommissionInfo }

/-- A row of the `orders` table (`payment_api.py` lines 47-66, `bot.py` lines 82-101).
Nullable columns are `Option`s; columns never read by the embedded handlers
(`design_text`, `design_photo`, `location_*`, `order_time`, `delivery_comment`,
`payment_url`) are omitted. -/
structure Order where
  order_id : Nat
  user_id : Option Int := none
  product : Option String := none
  quantity : Option Int := none
  cost_info : Option String := none
  status : Option String := none
  merchant_trans_id : Option String := none
  admin_price : Option ℚ := none
  is_paid : Int := 0
deriving DecidableEq, Repr

/-- A row of the `clients` table (`bot.py` lines 74-81); only the columns read by
`client_accept_order` are kept. -/
structure Client where
  user_id : Int
  contact : Option String := none
deriving DecidableEq, Repr

/-- `SELECT * FROM orders WHERE merchant_trans_id=%s` with `fetchone()`: the first
matching row. -/
def findOrderByMtid (db : List Order) (mtid : String) : Option Order :=
  db.find? (fun o => o.merchant_trans_id == some mtid)

/-- Fresh `order_id` produced by the `SERIAL` primary key on `INSERT ... RETURNING
order_id` (`payment_api.py` lines 200-203).  The model allocates one more than the
largest id in the table, which is fresh and positive. -/
def nextOrderId (db : List Order) : Nat :=
  (db.map Order.order_id).foldr max 0 + 1

/-- Environment of the webhook handlers: `SECRET_KEY`, `hashlib.md5(...).hexdigest()`
(`payment_api.py` lines 84-85) and Python's `str()` applied to the parsed float
`amount` inside the signature f-string. -/
structure Env where
  secretKey : String
  md5 : String → String
  floatRepr : ℚ → String

/-- A `/click-api/prepare` request with all required form fields present and `amount`
already parsed (`payment_api.py` lines 157-179). -/
structure PrepareReq where
  click_trans_id : String
  service_id : String
  click_paydoc_id : String
  merchant_trans_id : String
  amount : ℚ
  action : String
  sign_time : String
  sign_string : String
deriving DecidableEq, Repr

/-- The value answered as `merchant_prepare_id`: normally the numeric `order_id`, with
the source's fallback to the `merchant_trans_id` string when the id is falsy
(`payment_api.py` lines 205-216). -/
inductive PrepId where
  | oid : Nat → PrepId
  | mtid : String → PrepId
deriving DecidableEq, Repr

/-- The JSON envelope answered by `prepare`; error responses carry only the code. -/
structure PrepareResp where
  error : Int
  click_trans_id : Option String := none
  merchant_trans_id : Option String := none
  merchant_prepare_id : Option PrepId := none
deriving DecidableEq, Repr

/-- The string whose MD5 is compared with `sign_string` in `prepare`
(`payment_api.py` line 188):
`click_trans_id + service_id + SECRET_KEY + merchant_trans_id + amount + action + sign_time`. -/
def prepareSignData (env : Env) (r : PrepareReq) : String :=
  r.click_trans_id ++ r.service_id ++ env.secretKey ++ r.merchant_trans_id ++
    env.floatRepr r.amount ++ r.action ++ r.sign_time

/-- Row update performed by `UPDATE orders SET status='pending', cost_info=%s WHERE
merchant_trans_id=%s` (`payment_api.py` lines 197-198). -/
def prepUpdate (click_trans_id merchant_trans_id : String) (o : Order) : Order :=
  if o.merchant_trans_id == some merchant_trans_id then
    { o with status := some "pending", cost_info := some click_trans_id }
  else o

/-- Body of `prepare` after the `action` and signature checks succeeded
(`payment_api.py` lines 195-227): update-else-insert reservation, then answer the
`order_id` as `merchant_prepare_id`. -/
def prepareAfterChecks (db : List Order) (click_trans_id merchant_trans_id : String) :
    List Order × PrepareResp :=
  let updated := db.map (prepUpdate click_trans_id merchant_trans_id)
  if (db.filter (fun o => o.merchant_trans_id == some merchant_trans_id)).length = 0 then
    let newOrder : Order :=
      { order_id := nextOrderId db
        merchant_trans_id := some merchant_trans_id
        status := some "pending"
        cost_info := some click_trans_id }
    let mpid := if newOrder.order_id ≠ 0 then PrepId.oid newOrder.order_id
                else PrepId.mtid merchant_trans_id
    (updated ++ [newOrder],
     { error := 0
       click_trans_id := some click_trans_id
       merchant_trans_id := some merchant_trans_id
       merchant_prepare_id := some mpid })
  else
    let mpid := match findOrderByMtid updated merchant_trans_id with
      | some row => if row.order_id ≠ 0 then PrepId.oid row.order_id
                    else PrepId.mtid merchant_trans_id
      | none => PrepId.mtid merchant_trans_id
    (updated,
     { error := 0
       click_trans_id := some click_trans_id
       merchant_trans_id := some merchant_trans_id
       merchant_prepare_id := some mpid })

/-- The `/click-api/prepare` handler (`payment_api.py` lines 153-227).  Returns the
new table contents and the response envelope.  A wrong `action` or a signature
mismatch answers protocol error `-8` and touches nothing. -/
def prepare (env : Env) (db : List Order) (r : PrepareReq) : List Order × PrepareResp :=
  if r.action ≠ "0" then (db, { error := -8 })
  else if env.md5 (prepareSignData env r) ≠ r.sign_string then (db, { error := -8 })
  else prepareAfterChecks db r.click_trans_id r.merchant_trans_id

/-- A `/click-api/complete` request with all required form fields present and `amount`
already parsed (`payment_api.py` lines 233-257). -/
structure CompleteReq where
  click_trans_id : String
  service_id : String
  click_paydoc_id : String
  merchant_trans_id : String
  merchant_prepare_id : String
  amount : ℚ
  action : String
  sign_time : String
  sign_string : String
deriving DecidableEq, Repr

/-- Observable outcome of one `complete` call: the new table contents, the protocol
error code, and the outbound fiscal submission (whether the POST of
`payment_api.py` lines 341-345 was attempted, with the `items`, `payment_id` and
`received_ecash` of its payload) plus the echoed `merchant_confirm_id`. -/
structure CompleteResult where
  db : List Order
  error : Int
  fiscalSubmitted : Bool := false
  fiscalItems : List FiscalItem := []
  fiscalPaymentId : Option String := none
  receivedEcash : Option ℚ := none
  merchantConfirmId : Option String := none
deriving DecidableEq, Repr

/-- The string whose MD5 is compared with `sign_string` in `complete`
(`payment_api.py` line 266): as in `prepare` but with `merchant_prepare_id`
inserted before `amount`. -/
def completeSignData (env : Env) (r : CompleteReq) : String :=
  r.click_trans_id ++ r.service_id ++ env.secretKey ++ r.merchant_trans_id ++
    r.merchant_prepare_id ++ env.floatRepr r.amount ++ r.action ++ r.sign_time

/-- Row update performed by `UPDATE orders SET is_paid=1, status='processing' WHERE
merchant_trans_id=%s` (`payment_api.py` line 289). -/
def markPaidFn (merchant_trans_id : String) (o : Order) : Order :=
  if o.merchant_trans_id == some merchant_trans_id then
    { o with is_paid := 1, status := some "processing" }
  else o

/-- Row update performed by `UPDATE orders SET status='completed' WHERE
merchant_trans_id=%s` (`payment_api.py` line 356). -/
def markCompletedFn (merchant_trans_id : String) (o : Order) : Order :=
  if o.merchant_trans_id == some merchant_trans_id then
    { o with status := some "completed" }
  else o

/-- The `create_fiscal_item(product_name, quantity, unit_price)` call of
`payment_api.py` line 316, where `product` and `quantity` come from nullable
columns: a `NULL` product or quantity makes the call raise (dictionary miss /
`TypeError` on `unit_price * None`), which the surrounding `try` maps to error
`-10`, exactly like an unknown product name. -/
def completeFiscalItem (product : Option String) (quantity : Option Int)
    (unit_price : ℚ) : Option FiscalItem :=
  match product, quantity with
  | some name, some q => create_fiscal_item name q unit_price
  | _, _ => none

/-- Body of `complete` after the `action` and signature checks succeeded
(`payment_api.py` lines 277-369): order lookup (`-5`), already-paid guard (`-4`),
mark paid/processing, re-read the row, admin-price truthiness guard (`-8`, also
taken when `admin_price` is `0` since `0.0` is falsy in Python), unit conversion
to minor units (`admin_price * 100`), fiscal item construction (`-10` on failure),
fiscal submission and the final `status='completed'` write.  The fiscal POST's
network outcome does not influence any database write in the source. -/
def completeAfterChecks (db : List Order)
    (click_trans_id merchant_trans_id merchant_prepare_id : String) (amount : ℚ) :
    CompleteResult :=
  match findOrderByMtid db merchant_trans_id with
  | none => { db := db, error := -5 }
  | some order_row =>
    if order_row.is_paid = 1 then { db := db, error := -4 }
    else
      let db1 := db.map (markPaidFn merchant_trans_id)
      match findOrderByMtid db1 merchant_trans_id with
      | none => { db := db1, error := -8 }
      | some row =>
        match row.admin_price with
        | none => { db := db1, error := -8 }
        | some admin_price =>
          if admin_price = 0 then { db := db1, error := -8 }
          else
            let unit_price := admin_price * 100
            match completeFiscalItem row.product row.quantity unit_price with
            | none => { db := db1, error := -10 }
            | some item =>
              { db := db1.map (markCompletedFn merchant_trans_id)
                error := 0
                fiscalSubmitted := true
                fiscalItems := [item]
                fiscalPaymentId := some click_trans_id
                receivedEcash := some amount
                merchantConfirmId := some merchant_prepare_id }

/-- The `/click-api/complete` handler (`payment_api.py` lines 229-369).  A wrong
`action` or a signature mismatch answers protocol error `-8` and touches nothing. -/
def complete (env : Env) (db : List Order) (r : CompleteReq) : CompleteResult :=
  if r.action ≠ "1" then { db := db, error := -8 }
  else if env.md5 (completeSignData env r) ≠ r.sign_string then { db := db, error := -8 }
  else completeAfterChecks db r.click_trans_id r.merchant_trans_id
        r.merchant_prepare_id r.amount

/-- Python `str.isdigit` restricted to ASCII: a non-empty string of digits.  This is
the only numeric validation in `process_admin_price` (`bot.py` line 492). -/
def isDigitString (s : String) : Bool :=
  s ≠ "" && s.toList.all Char.isDigit

/-- Decimal value of an `isdigit`-validated string: the number produced by Python's
`float(price_text)` (always a non-negative integer there). -/
def digitsToNat (s : String) : Nat :=
  s.toList.foldl (fun n c => n * 10 + (c.toNat - 48)) 0

/-- Outcome of the admin price-entry handler, beyond the table contents. -/
inductive PriceOutcome where
  | rejectedNonNumeric
  | missingOrderId
  | orderMissing (stored : ℚ)
  | crashedNullQuantity (stored : ℚ)
  | accepted (stored total : ℚ)
deriving DecidableEq, Repr

/-- `SELECT ... FROM orders WHERE order_id=%s` with `fetchone()`: first matching row. -/
def findOrderById (db : List Order) (order_id : Nat) : Option Order :=
  db.find? (fun o => o.order_id == order_id)

/-- Row update performed by `UPDATE orders SET admin_price=%s WHERE order_id=%s`
(`bot.py` line 503). -/
def setAdminPriceFn (order_id : Nat) (admin_price_sum : ℚ) (o : Order) : Order :=
  if o.order_id == order_id then { o with admin_price := some admin_price_sum } else o

/-- Row update performed by `UPDATE orders SET status=%s WHERE order_id=%s` with
status "Ожидание оплаты" (`bot.py` line 535). -/
def awaitPaymentFn (order_id : Nat) (o : Order) : Order :=
  if o.order_id == order_id then { o with status := some "Ожидание оплаты" } else o

/-- Row update performed by `UPDATE orders SET merchant_trans_id=%s WHERE
order_id=%s` (`bot.py` line 549). -/
def setMtidFn (order_id : Nat) (merchant_trans_id : String) (o : Order) : Order :=
  if o.order_id == order_id then { o with merchant_trans_id := some merchant_trans_id }
  else o

/-- The phone lookup of `client_accept_order` (`bot.py` lines 552-554):
`SELECT contact FROM clients WHERE user_id=%s`, with `""` when the row is missing
or the contact column falsy. -/
def clientPhone (clients : List Client) (user_id : Option Int) : String :=
  match user_id with
  | none => ""
  | some uid =>
    match clients.find? (fun c => c.user_id == uid) with
    | none => ""
    | some c => c.contact.getD ""

/-- The admin price-entry handler `process_admin_price` (`bot.py` lines 489-528),
which runs only in the admin FSM state `AdminPriceState.waiting_for_price` with
`fsm_order_id` the `order_id` stored in the FSM data by `approve_order`.
Steps: `isdigit` gate, `admin_price_sum = float(price_text)`, truthiness check on
the stored `order_id`, `UPDATE orders SET admin_price=%s WHERE order_id=%s`,
re-read of the row, and `total_amount_sum = admin_price_sum * quantity` for the
client message (a `NULL` quantity makes that line raise `TypeError` after the
price has already been stored).  The order's own `status` column is never
consulted. -/
def process_admin_price (db : List Order) (fsm_order_id : Option Nat)
    (price_text : String) : List Order × PriceOutcome :=
  if ¬ isDigitString price_text then (db, .rejectedNonNumeric)
  else
    let admin_price_sum : ℚ := ((digitsToNat price_text : ℕ) : ℚ)
    match fsm_order_id with
    | none => (db, .missingOrderId)
    | some order_id =>
      if order_id = 0 then (db, .missingOrderId)
      else
        let db' := db.map (setAdminPriceFn order_id admin_price_sum)
        match findOrderById db' order_id with
        | none => (db', .orderMissing admin_price_sum)
        | some result =>
          match result.quantity with
          | none => (db', .crashedNullQuantity admin_price_sum)
          | some q => (db', .accepted admin_price_sum (admin_price_sum * (q : ℚ)))

/-- The JSON body POSTed to `/click-api/create_invoice` by `client_accept_order`
(`bot.py` lines 557-561): `amount` is `total_amount_sum`, the sum in the shop's
major currency unit (the source comments it as "сумма платежа в суммах"). -/
structure InvoicePayload where
  merchant_trans_id : String
  amount : ℚ
  phone_number : String
deriving DecidableEq, Repr

/-- Outcome of `client_accept_order` beyond the table contents. -/
inductive AcceptOutcome where
  | orderMissing
  | crashedNullField
  | invoiceRequested (mtid : String) (payload : InvoicePayload)
deriving DecidableEq, Repr

/-- The client confirmation handler `client_accept_order` (`bot.py` lines 530-586),
up to and including the invoice-creation request (later writes touch only
`payment_url`).  Steps: `UPDATE orders SET status='Ожидание оплаты'`, re-read
the row (`orderMissing` if absent), `float(result["admin_price"])` and
`admin_price * quantity` (either `NULL` raises, `crashedNullField`), generation of
a fresh `merchant_trans_id` — `freshUuid` stands for `str(uuid.uuid4())` —
unconditional `UPDATE orders SET merchant_trans_id=%s`, phone lookup in `clients`,
and the invoice payload. -/
def client_accept_order (db : List Order) (clients : List Client) (order_id : Nat)
    (freshUuid : String) : List Order × AcceptOutcome :=
  let db1 := db.map (awaitPaymentFn order_id)
  match findOrderById db1 order_id with
  | none => (db1, .orderMissing)
  | some result =>
    match result.admin_price, result.quantity with
    | some admin_price_sum, some quantity =>
      let total_amount_sum := admin_price_sum * (quantity : ℚ)
      let db2 := db1.map (setMtidFn order_id freshUuid)
      let client_phone := clientPhone clients result.user_id
      (db2, .invoiceRequested freshUuid
        { merchant_trans_id := freshUuid
          amount := total_amount_sum
          phone_number := client_phone })
    | _, _ => (db1, .crashedNullField)

/-! Helper lemmas about the table operations. -/

/-- Mapping a row transformer that does not change a predicate commutes with
`find?`. -/
theorem find?_map_eq (g : Order → Order) (p : Order → Bool) (hg : ∀ o, p (g o) = p o)
    (db : List Order) : (db.map g).find? p = (db.find? p).map g := by
  have hpg : (p ∘ g) = p := funext hg
  rw [List.find?_map, hpg]

theorem prepUpdate_mtid (ct m : String) (o : Order) :
    (prepUpdate ct m o).merchant_trans_id = o.merchant_trans_id := by
  unfold prepUpdate; split <;> rfl

theorem prepUpdate_oid (ct m : String) (o : Order) :
    (prepUpdate ct m o).order_id = o.order_id := by
  unfold prepUpdate; split <;> rfl

theorem prepUpdate_is_paid (ct m : String) (o : Order) :
    (prepUpdate ct m o).is_paid = o.is_paid := by
  unfold prepUpdate; split <;> rfl

theorem markPaidFn_mtid (m : String) (o : Order) :
    (markPaidFn m o).merchant_trans_id = o.merchant_trans_id := by
  unfold markPaidFn; split <;> rfl

theorem markCompletedFn_mtid (m : String) (o : Order) :
    (markCompletedFn m o).merchant_trans_id = o.merchant_trans_id := by
  unfold markCompletedFn; split <;> rfl

theorem markCompletedFn_is_paid (m : String) (o : Order) :
    (markCompletedFn m o).is_paid = o.is_paid := by
  unfold markCompletedFn; split <;> rfl

/-- `findOrderByMtid` over a mapped table, for transformers preserving the key. -/
theorem findOrderByMtid_map (g : Order → Order)
    (hg : ∀ o, (g o).merchant_trans_id = o.merchant_trans_id)
    (db : List Order) (m : String) :
    findOrderByMtid (db.map g) m = (findOrderByMtid db m).map g := by
  unfold findOrderByMtid
  exact find?_map_eq g _ (fun o => by rw [hg]) db

/-- The SQL `rowcount` test of `prepare` is equivalent to the lookup failing. -/
theorem filterMtid_len_zero (db : List Order) (m : String) :
    ((db.filter (fun o => o.merchant_trans_id == some m)).length = 0) ↔
      findOrderByMtid db m = none := by
  rw [List.length_eq_zero, List.filter_eq_nil_iff, findOrderByMtid, List.find?_eq_none]

/-- Every row carrying the captured `merchant_trans_id` is paid and `processing`
after the `is_paid=1` update of `complete`. -/
theorem paid_after_mark (db : List Order) (m : String) :
    ∀ o' ∈ db.map (markPaidFn m), o'.merchant_trans_id = some m →
      o'.is_paid = 1 ∧ o'.status = some "processing" := by
  intro o' ho' hm
  obtain ⟨o, _, rfl⟩ := List.mem_map.mp ho'
  by_cases h : (o.merchant_trans_id == some m) = true
  · unfold markPaidFn; rw [if_pos h]; exact ⟨rfl, rfl⟩
  · exfalso
    apply h
    rw [beq_iff_eq]
    rw [markPaidFn_mtid] at hm
    exact hm

/-- Projections of a successfully constructed fiscal item (`fiscal.py` lines 16-29). -/
theorem create_fiscal_item_proj (name : String) (qty : Int) (up : ℚ) (item : FiscalItem)
    (h : create_fiscal_item name qty up = some item) :
    item.Name = name ∧ item.GoodPrice = up ∧ item.Price = up * (qty : ℚ) ∧
    item.Amount = qty ∧
    item.VAT = pythonRound (item.Price / (112/100) * (12/100)) ∧
    item.VATPercent = 12 := by
  unfold create_fiscal_item at h
  cases hfind : products_data.find? (fun p => p.1 == name) with
  | none => rw [hfind] at h; exact absurd h (by simp)
  | some p =>
    rw [hfind] at h
    injection h with h
    subst h
    exact ⟨rfl, rfl, rfl, rfl, rfl, rfl⟩

/-- A fiscal item is produced only when both nullable columns are present and the
product is in the catalog. -/
theorem completeFiscalItem_some (p : Option String) (q : Option Int) (up : ℚ)
    (item : FiscalItem) (h : completeFiscalItem p q up = some item) :
    ∃ name qv, p = some name ∧ q = some qv ∧ create_fiscal_item name qv up = some item := by
  unfold completeFiscalItem at h
  match p, q with
  | some name, some qv => exact ⟨name, qv, rfl, rfl, h⟩
  | some _, none => exact absurd h (by simp)
  | none, _ => exact absurd h (by simp)

/-! Concrete fixtures used by the counterexamples and witnesses. -/

/-- Concrete environment: the MD5 oracle is the identity on the signature data and
the float renderer is constant, which the handlers are oblivious to. -/
def envA : Env := { secretKey := "SECRET", md5 := fun s => s, floatRepr := fun _ => "A" }

/-- A priced, confirmed, unpaid order joined to `merchant_trans_id` "M". -/
def ordM : Order :=
  { order_id := 1, user_id := some 10, product := some "Кружка", quantity := some 2,
    status := some "Ожидание оплаты", merchant_trans_id := some "M",
    admin_price := some 5, is_paid := 0 }

/-- A correctly signed `prepare` request for "M" under `envA`. -/
def prepM : PrepareReq :=
  { click_trans_id := "ct", service_id := "sid", click_paydoc_id := "pd",
    merchant_trans_id := "M", amount := 100, action := "0", sign_time := "t",
    sign_string := "ctsidSECRETMA0t" }

/-- A correctly signed `complete` request for "M" under `envA` whose
`merchant_prepare_id` is the unrelated string "999". -/
def compM : CompleteReq :=
  { click_trans_id := "ct", service_id := "sid", click_paydoc_id := "pd",
    merchant_trans_id := "M", merchant_prepare_id := "999", amount := 100,
    action := "1", sign_time := "t", sign_string := "ctsidSECRETM999A1t" }

/-! ### C7 — fiscal line-item arithmetic -/

/-- C7: for every catalog product, quantity and unit price, the fiscal line-item
function returns `totalPrice = unitPrice × quantity` and
`VAT = round(totalPrice / 1.12 × 0.12)` (12% inclusive rate); in particular a
total price of `112000` yields VAT `12000`; it fails (`none`, the `ValueError` of
the source) when the catalog has no entry for the product. -/
theorem create_fiscal_item_vat (product_name : String) (quantity : Int) (unit_price : ℚ) :
    (∀ item, create_fiscal_item product_name quantity unit_price = some item →
      item.Price = unit_price * (quantity : ℚ) ∧
      item.VAT = pythonRound (item.Price / (112/100) * (12/100)) ∧
      (item.Price = 112000 → item.VAT = 12000)) ∧
    (products_data.find? (fun p => p.1 == product_name) = none →
      create_fiscal_item product_name quantity unit_price = none) := by
  constructor
  · intro item h
    obtain ⟨-, -, hPrice, -, hVAT, -⟩ := create_fiscal_item_proj _ _ _ _ h
    refine ⟨hPrice, hVAT, ?_⟩
    intro h112
    rw [hVAT, h112]
    decide
  · intro hnone
    unfold create_fiscal_item
    rw [hnone]

/-- Witness for C7: the mug at unit price 56000 and quantity 2 has total price
112000 and VAT 12000, and an unknown product is rejected. -/
theorem create_fiscal_item_vat_w :
    (∃ item, create_fiscal_item "Кружка" 2 56000 = some item ∧
      item.Price = 112000 ∧ item.VAT = 12000) ∧
    create_fiscal_item "Чашка" 2 56000 = none := by
  constructor
  · cases hit : create_fiscal_item "Кружка" 2 56000 with
    | none => exact absurd hit (by decide)
    | some item =>
      have h := (create_fiscal_item_vat "Кружка" 2 56000).1 item hit
      have hp : item.Price = 112000 := by rw [h.1]; decide
      exact ⟨item, rfl, hp, h.2.2 hp⟩
  · exact (create_fiscal_item_vat "Чашка" 2 56000).2 (by decide)

/-! ### C5 — signature mismatch handling -/

/-- Counterexample for C5: a `prepare` (and a `complete`) request whose
`sign_string` does not match the expected MD5 is answered with protocol error
`-8`, not `-1` as the claim states (the state is indeed untouched). -/
theorem sign_mismatch_code_cex :
    envA.md5 (prepareSignData envA { prepM with sign_string := "WRONG" }) ≠ "WRONG" ∧
    prepare envA [ordM] { prepM with sign_string := "WRONG" } =
      ([ordM], { error := -8 }) ∧
    (prepare envA [ordM] { prepM with sign_string := "WRONG" }).2.error ≠ -1 ∧
    envA.md5 (completeSignData envA { compM with sign_string := "WRONG" }) ≠ "WRONG" ∧
    complete envA [ordM] { compM with sign_string := "WRONG" } =
      { db := [ordM], error := -8 } ∧
    (complete envA [ordM] { compM with sign_string := "WRONG" }).error ≠ -1 := by
  decide

/-- C5 as amended: a signature mismatch on either webhook is rejected with
protocol error `-8` (not `-1`) and performs no state change. -/
theorem sign_mismatch_rejected_minus8 (env : Env) (db : List Order)
    (rp : PrepareReq) (rc : CompleteReq)
    (hp : env.md5 (prepareSignData env rp) ≠ rp.sign_string)
    (hc : env.md5 (completeSignData env rc) ≠ rc.sign_string) :
    prepare env db rp = (db, { error := -8 }) ∧
    complete env db rc = { db := db, error := -8 } := by
  constructor
  · unfold prepare
    by_cases ha : rp.action ≠ "0"
    · rw [if_pos ha]
    · rw [if_neg ha, if_pos hp]
  · unfold complete
    by_cases ha : rc.action ≠ "1"
    · rw [if_pos ha]
    · rw [if_neg ha, if_pos hc]

/-- Witness for C5 (amended): concrete mis-signed requests are both answered with
`-8` and leave the table alone. -/
theorem sign_mismatch_rejected_minus8_w :
    prepare envA [ordM] { prepM with sign_string := "WRONG" } = ([ordM], { error := -8 }) ∧
    complete envA [ordM] { compM with sign_string := "WRONG" } = { db := [ordM], error := -8 } :=
  sign_mismatch_rejected_minus8 envA [ordM] { prepM with sign_string := "WRONG" }
    { compM with sign_string := "WRONG" } (by decide) (by decide)

/-! ### C3 — prepare for a missing order -/

theorem nextOrderId_ne_zero (db : List Order) : nextOrderId db ≠ 0 :=
  Nat.succ_ne_zero _

/-- When no row matches, the `UPDATE` of `prepare` leaves the table unchanged. -/
theorem prepUpdate_map_of_none (db : List Order) (ct m : String)
    (hnone : findOrderByMtid db m = none) :
    db.map (prepUpdate ct m) = db := by
  have h : ∀ o ∈ db, prepUpdate ct m o = o := by
    intro o ho
    have hpred : ¬ ((o.merchant_trans_id == some m) = true) :=
      List.find?_eq_none.mp hnone o ho
    unfold prepUpdate
    rw [if_neg hpred]
  rw [List.map_congr_left h]
  simp

/-- Reduction of `prepare` once the `action` and signature checks pass. -/
theorem prepare_checks_pass (env : Env) (db : List Order) (r : PrepareReq)
    (hact : r.action = "0")
    (hsig : env.md5 (prepareSignData env r) = r.sign_string) :
    prepare env db r = prepareAfterChecks db r.click_trans_id r.merchant_trans_id := by
  unfold prepare
  rw [if_neg (not_not_intro hact), if_neg (not_not_intro hsig)]

/-- The row inserted by `prepare` when no order matches `merchant_trans_id`. -/
theorem prepareAfterChecks_not_found (db : List Order) (ct m : String)
    (hnone : findOrderByMtid db m = none) :
    prepareAfterChecks db ct m =
      (db ++ [{ order_id := nextOrderId db, merchant_trans_id := some m,
                status := some "pending", cost_info := some ct }],
       { error := 0, click_trans_id := some ct, merchant_trans_id := some m,
         merchant_prepare_id := some (PrepId.oid (nextOrderId db)) }) := by
  unfold prepareAfterChecks
  rw [if_pos ((filterMtid_len_zero db m).mpr hnone)]
  rw [prepUpdate_map_of_none db ct m hnone]
  dsimp only
  rw [if_pos (nextOrderId_ne_zero db)]

/-- The response of `prepare` when some order matches `merchant_trans_id`. -/
theorem prepareAfterChecks_found (db : List Order) (ct m : String) (o : Order)
    (hsome : findOrderByMtid db m = some o) :
    prepareAfterChecks db ct m =
      (db.map (prepUpdate ct m),
       { error := 0, click_trans_id := some ct, merchant_trans_id := some m,
         merchant_prepare_id :=
           some (if o.order_id ≠ 0 then PrepId.oid o.order_id else PrepId.mtid m) }) := by
  unfold prepareAfterChecks
  have hlen : ¬ ((db.filter (fun o => o.merchant_trans_id == some m)).length = 0) := by
    rw [filterMtid_len_zero]
    simp [hsome]
  rw [if_neg hlen]
  rw [findOrderByMtid_map (prepUpdate ct m) (prepUpdate_mtid ct m) db m, hsome]
  rw [Option.map_some']
  dsimp only
  rw [prepUpdate_oid]

/-- Counterexample for C3: a correctly signed `prepare` whose `merchant_trans_id`
matches no order does not answer `-5`; it answers `0` and inserts a fresh order
row. -/
theorem prepare_missing_order_cex :
    findOrderByMtid [] prepM.merchant_trans_id = none ∧
    (prepare envA [] prepM).2.error = 0 ∧
    (prepare envA [] prepM).2.error ≠ -5 ∧
    (prepare envA [] prepM).1.length = 1 := by decide

/-- C3 as amended: a correctly signed `prepare` never answers `-5`.  If the
`merchant_trans_id` matches no order it inserts a new bare row (status
`pending`, `cost_info` the `click_trans_id`) and answers `0` with the fresh
`order_id` as `merchant_prepare_id`; in every case it answers `0`, never changes
any `is_paid` flag (the inserted row starts unpaid), and a duplicate `prepare`
answers the same `merchant_prepare_id`. -/
theorem prepare_creates_missing_order (env : Env) (db : List Order) (r : PrepareReq)
    (hact : r.action = "0")
    (hsig : env.md5 (prepareSignData env r) = r.sign_string) :
    (findOrderByMtid db r.merchant_trans_id = none →
      prepare env db r =
        (db ++ [{ order_id := nextOrderId db,
                  merchant_trans_id := some r.merchant_trans_id,
                  status := some "pending", cost_info := some r.click_trans_id }],
         { error := 0, click_trans_id := some r.click_trans_id,
           merchant_trans_id := some r.merchant_trans_id,
           merchant_prepare_id := some (PrepId.oid (nextOrderId db)) })) ∧
    (prepare env db r).2.error = 0 ∧
    ((prepare env db r).1.map Order.is_paid =
      db.map Order.is_paid ++
        (if findOrderByMtid db r.merchant_trans_id = none then [0] else [])) ∧
    (prepare env (prepare env db r).1 r).2.merchant_prepare_id =
      (prepare env db r).2.merchant_prepare_id := by
  have hred := prepare_checks_pass env db r hact hsig
  refine ⟨?_, ?_, ?_, ?_⟩
  · intro hnone
    rw [hred, prepareAfterChecks_not_found db r.click_trans_id r.merchant_trans_id hnone]
  · cases hfind : findOrderByMtid db r.merchant_trans_id with
    | none => rw [hred, prepareAfterChecks_not_found _ _ _ hfind]
    | some o => rw [hred, prepareAfterChecks_found _ _ _ o hfind]
  · cases hfind : findOrderByMtid db r.merchant_trans_id with
    | none =>
      rw [hred, prepareAfterChecks_not_found _ _ _ hfind, if_pos rfl]
      simp
    | some o =>
      rw [hred, prepareAfterChecks_found _ _ _ o hfind]
      rw [if_neg (by simp : ¬ ((some o : Option Order) = none))]
      simp only [List.map_map, List.append_nil]
      congr 1
      funext x
      exact prepUpdate_is_paid r.click_trans_id r.merchant_trans_id x
  · cases hfind : findOrderByMtid db r.merchant_trans_id with
    | none =>
      rw [hred, prepareAfterChecks_not_found _ _ _ hfind]
      have hred2 := prepare_checks_pass env
        (db ++ [{ order_id := nextOrderId db,
                  merchant_trans_id := some r.merchant_trans_id,
                  status := some "pending", cost_info := some r.click_trans_id }]) r hact hsig
      rw [hred2]
      have hfind2 : findOrderByMtid
          (db ++ [{ order_id := nextOrderId db,
                    merchant_trans_id := some r.merchant_trans_id,
                    status := some "pending", cost_info := some r.click_trans_id }])
          r.merchant_trans_id =
          some { order_id := nextOrderId db,
                 merchant_trans_id := some r.merchant_trans_id,
                 status := some "pending", cost_info := some r.click_trans_id } := by
        unfold findOrderByMtid at hfind ⊢
        rw [List.find?_append, hfind]
        simp [List.find?]
      rw [prepareAfterChecks_found _ _ _ _ hfind2]
      rw [if_pos (nextOrderId_ne_zero db)]
    | some o =>
      rw [hred, prepareAfterChecks_found _ _ _ o hfind]
      have hred2 := prepare_checks_pass env (db.map (prepUpdate r.click_trans_id r.merchant_trans_id)) r hact hsig
      rw [hred2]
      have hfind2 : findOrderByMtid (db.map (prepUpdate r.click_trans_id r.merchant_trans_id))
          r.merchant_trans_id = some (prepUpdate r.click_trans_id r.merchant_trans_id o) := by
        rw [findOrderByMtid_map _ (prepUpdate_mtid _ _) db _, hfind, Option.map_some']
      rw [prepareAfterChecks_found _ _ _ _ hfind2]
      rw [prepUpdate_oid]

/-- Witness for C3 (amended): starting from the empty table, a first `prepare`
inserts row 1 and answers prepare id 1; the duplicate call answers the same id;
no `is_paid` flag is ever set. -/
theorem prepare_creates_missing_order_w :
    prepare envA [] prepM =
      ([{ order_id := 1, merchant_trans_id := some "M",
          status := some "pending", cost_info := some "ct" }],
       { error := 0, click_trans_id := some "ct", merchant_trans_id := some "M",
         merchant_prepare_id := some (PrepId.oid 1) }) ∧
    (prepare envA (prepare envA [] prepM).1 prepM).2.merchant_prepare_id =
      some (PrepId.oid 1) := by
  have h := prepare_creates_missing_order envA [] prepM rfl (by decide)
  constructor
  · have h1 := h.1 (by decide)
    rw [h1]
    decide
  · rw [h.2.2.2, (h.1 (by decide))]
    decide

/-! ### C2 / C10 — what `complete` and `prepare` never look at -/

/-- After the validation checks, `complete` treats `merchant_prepare_id` and
`amount` as opaque: they influence only the echoed `merchant_confirm_id` and the
forwarded `received_ecash`, never the table, the error code or the fiscal
items. -/
theorem completeAfterChecks_indep (db : List Order) (ct m : String)
    (p₁ p₂ : String) (a₁ a₂ : ℚ) :
    (completeAfterChecks db ct m p₁ a₁).db = (completeAfterChecks db ct m p₂ a₂).db ∧
    (completeAfterChecks db ct m p₁ a₁).error = (completeAfterChecks db ct m p₂ a₂).error ∧
    (completeAfterChecks db ct m p₁ a₁).fiscalSubmitted =
      (completeAfterChecks db ct m p₂ a₂).fiscalSubmitted ∧
    (completeAfterChecks db ct m p₁ a₁).fiscalItems =
      (completeAfterChecks db ct m p₂ a₂).fiscalItems ∧
    (p₁ = p₂ →
      (completeAfterChecks db ct m p₁ a₁).merchantConfirmId =
        (completeAfterChecks db ct m p₂ a₂).merchantConfirmId) := by
  unfold completeAfterChecks
  cases findOrderByMtid db m with
  | none => exact ⟨rfl, rfl, rfl, rfl, fun _ => rfl⟩
  | some order_row =>
    dsimp only
    by_cases hp : order_row.is_paid = 1
    · simp only [if_pos hp]
      exact ⟨trivial, trivial, trivial, trivial, fun _ => trivial⟩
    · simp only [if_neg hp]
      cases findOrderByMtid (db.map (markPaidFn m)) m with
      | none => exact ⟨rfl, rfl, rfl, rfl, fun _ => rfl⟩
      | some row =>
        dsimp only
        cases row.admin_price with
        | none => exact ⟨rfl, rfl, rfl, rfl, fun _ => rfl⟩
        | some admin_price =>
          dsimp only
          by_cases hz : admin_price = 0
          · simp only [if_pos hz]
            exact ⟨trivial, trivial, trivial, trivial, fun _ => trivial⟩
          · simp only [if_neg hz]
            cases completeFiscalItem row.product row.quantity (admin_price * 100) with
            | none => exact ⟨rfl, rfl, rfl, rfl, fun _ => rfl⟩
            | some item => exact ⟨rfl, rfl, rfl, rfl, fun h => by rw [h]⟩

/-- Reduction of `complete` once the `action` and signature checks pass. -/
theorem complete_checks_pass (env : Env) (db : List Order) (r : CompleteReq)
    (hact : r.action = "1")
    (hsig : env.md5 (completeSignData env r) = r.sign_string) :
    complete env db r =
      completeAfterChecks db r.click_trans_id r.merchant_trans_id
        r.merchant_prepare_id r.amount := by
  unfold complete
  rw [if_neg (not_not_intro hact), if_neg (not_not_intro hsig)]

/-- Counterexample for C2: with order "M" on file (prepare id `oid 1`), a correctly
signed `complete` carrying the unrelated `merchant_prepare_id` "999" is not
rejected with `-6`; it succeeds (`error 0`) and flips `is_paid` to 1. -/
theorem complete_prepare_id_mismatch_cex :
    (prepare envA [ordM] prepM).2.merchant_prepare_id = some (PrepId.oid 1) ∧
    compM.merchant_prepare_id = "999" ∧
    (complete envA [ordM] compM).error = 0 ∧
    (complete envA [ordM] compM).error ≠ -6 ∧
    findOrderByMtid (complete envA [ordM] compM).db "M" =
      some { ordM with is_paid := 1, status := some "completed" } := by
  decide

/-- C2 as amended: `complete` never verifies `merchant_prepare_id` — it only echoes
it back as `merchant_confirm_id`; two correctly signed `complete` requests that
differ only in `merchant_prepare_id` produce the same table, error code and
fiscal behaviour.  A `complete` whose `merchant_trans_id` matches no order row
(in particular one never seen by `prepare` and never created by the bot) fails
with `-5` "Order not found" (not `-6`) and mutates nothing. -/
theorem complete_ignores_prepare_id (env : Env) (db : List Order) (r : CompleteReq)
    (p₂ s₂ : String)
    (h₁ : env.md5 (completeSignData env r) = r.sign_string)
    (h₂ : env.md5 (completeSignData env
      { r with merchant_prepare_id := p₂, sign_string := s₂ }) = s₂) :
    ((complete env db { r with merchant_prepare_id := p₂, sign_string := s₂ }).db =
        (complete env db r).db ∧
      (complete env db { r with merchant_prepare_id := p₂, sign_string := s₂ }).error =
        (complete env db r).error ∧
      (complete env db { r with merchant_prepare_id := p₂, sign_string := s₂ }).fiscalSubmitted =
        (complete env db r).fiscalSubmitted ∧
      (complete env db { r with merchant_prepare_id := p₂, sign_string := s₂ }).fiscalItems =
        (complete env db r).fiscalItems) ∧
    (r.action = "1" → findOrderByMtid db r.merchant_trans_id = none →
      complete env db r = { db := db, error := -5 }) := by
  constructor
  · by_cases ha : r.action = "1"
    · rw [complete_checks_pass env db r ha h₁,
        complete_checks_pass env db { r with merchant_prepare_id := p₂, sign_string := s₂ } ha h₂]
      have h := completeAfterChecks_indep db r.click_trans_id r.merchant_trans_id
        p₂ r.merchant_prepare_id r.amount r.amount
      exact ⟨h.1, h.2.1, h.2.2.1, h.2.2.2.1⟩
    · unfold complete
      rw [if_pos ha, if_pos ha]
      exact ⟨rfl, rfl, rfl, rfl⟩
  · intro ha hnone
    rw [complete_checks_pass env db r ha h₁]
    unfold completeAfterChecks
    rw [hnone]

/-- Witness for C2 (amended): swapping prepare id "999" for "12345" changes nothing
observable about the call on `[ordM]`, and a `complete` against the empty table
answers `-5` without writes. -/
theorem complete_ignores_prepare_id_w :
    (complete envA [ordM]
      { compM with merchant_prepare_id := "12345", sign_string := "ctsidSECRETM12345A1t" }).db =
      (complete envA [ordM] compM).db ∧
    complete envA [] compM = { db := [], error := -5 } := by
  refine ⟨?_, ?_⟩
  · exact (complete_ignores_prepare_id envA [ordM] compM "12345" "ctsidSECRETM12345A1t"
      (by decide) (by decide)).1.1
  · exact (complete_ignores_prepare_id envA [] compM "12345" "ctsidSECRETM12345A1t"
      (by decide) (by decide)).2 rfl (by decide)

/-- C10: neither webhook handler compares the request's `amount` against the
order's stored total — two correctly signed requests differing only in `amount`
produce identical state transitions and error codes; for `prepare` even the whole
response coincides, for `complete` only the forwarded `received_ecash` differs. -/
theorem handlers_ignore_amount (env : Env) (db : List Order)
    (rp : PrepareReq) (rc : CompleteReq) (a₂ : ℚ) (s₂ : String) (b₂ : ℚ) (t₂ : String)
    (hp₁ : env.md5 (prepareSignData env rp) = rp.sign_string)
    (hp₂ : env.md5 (prepareSignData env { rp with amount := a₂, sign_string := s₂ }) = s₂)
    (hc₁ : env.md5 (completeSignData env rc) = rc.sign_string)
    (hc₂ : env.md5 (completeSignData env { rc with amount := b₂, sign_string := t₂ }) = t₂) :
    prepare env db { rp with amount := a₂, sign_string := s₂ } = prepare env db rp ∧
    (complete env db { rc with amount := b₂, sign_string := t₂ }).db =
      (complete env db rc).db ∧
    (complete env db { rc with amount := b₂, sign_string := t₂ }).error =
      (complete env db rc).error ∧
    (complete env db { rc with amount := b₂, sign_string := t₂ }).fiscalSubmitted =
      (complete env db rc).fiscalSubmitted ∧
    (complete env db { rc with amount := b₂, sign_string := t₂ }).fiscalItems =
      (complete env db rc).fiscalItems ∧
    (complete env db { rc with amount := b₂, sign_string := t₂ }).merchantConfirmId =
      (complete env db rc).merchantConfirmId := by
  refine ⟨?_, ?_⟩
  · by_cases ha : rp.action = "0"
    · rw [prepare_checks_pass env db rp ha hp₁,
        prepare_checks_pass env db { rp with amount := a₂, sign_string := s₂ } ha hp₂]
    · unfold prepare
      rw [if_pos ha, if_pos ha]
  · by_cases ha : rc.action = "1"
    · rw [complete_checks_pass env db rc ha hc₁,
        complete_checks_pass env db { rc with amount := b₂, sign_string := t₂ } ha hc₂]
      have h := completeAfterChecks_indep db rc.click_trans_id rc.merchant_trans_id
        rc.merchant_prepare_id rc.merchant_prepare_id b₂ rc.amount
      exact ⟨h.1, h.2.1, h.2.2.1, h.2.2.2.1, h.2.2.2.2 rfl⟩
    · unfold complete
      rw [if_pos ha, if_pos ha]
      exact ⟨rfl, rfl, rfl, rfl, rfl⟩

/-- Witness for C10: amount 100 and amount 777777 (each correctly signed) lead to
identical tables and error codes on both webhooks for the fixture order. -/
theorem handlers_ignore_amount_w :
    prepare envA [ordM] { prepM with amount := 777777, sign_string := "ctsidSECRETMA0t" } =
      prepare envA [ordM] prepM ∧
    (complete envA [ordM] { compM with amount := 777777, sign_string := "ctsidSECRETM999A1t" }).db =
      (complete envA [ordM] compM).db ∧
    (complete envA [ordM] { compM with amount := 777777, sign_string := "ctsidSECRETM999A1t" }).error =
      (complete envA [ordM] compM).error := by
  have h := handlers_ignore_amount envA [ordM] prepM compM 777777 "ctsidSECRETMA0t"
    777777 "ctsidSECRETM999A1t" (by decide) (by decide) (by decide) (by decide)
  exact ⟨h.1, h.2.1, h.2.2.1⟩

/-! ### C1 / C9 — the capture path of `complete` -/

/-- A successful lookup means the row's key matches. -/
theorem findOrderByMtid_matches {db : List Order} {m : String} {o : Order}
    (h : findOrderByMtid db m = some o) : (o.merchant_trans_id == some m) = true := by
  unfold findOrderByMtid at h
  have h2 := List.find?_some h
  exact h2

theorem markPaidFn_eq_of_matches {m : String} {o : Order}
    (h : (o.merchant_trans_id == some m) = true) :
    markPaidFn m o = { o with is_paid := 1, status := some "processing" } := by
  unfold markPaidFn
  rw [if_pos h]

/-- Looking the order up again after the `is_paid=1` update finds the same row,
now marked paid and `processing`. -/
theorem find_markPaid (db : List Order) (m : String) (o : Order)
    (hfind : findOrderByMtid db m = some o) :
    findOrderByMtid (db.map (markPaidFn m)) m =
      some { o with is_paid := 1, status := some "processing" } := by
  rw [findOrderByMtid_map _ (markPaidFn_mtid m) db m, hfind, Option.map_some',
    markPaidFn_eq_of_matches (findOrderByMtid_matches hfind)]

/-- As `paid_after_mark`, after the additional `status='completed'` update. -/
theorem paid_after_mark_completed (db : List Order) (m : String) :
    ∀ o' ∈ (db.map (markPaidFn m)).map (markCompletedFn m),
      o'.merchant_trans_id = some m → o'.is_paid = 1 := by
  intro o' ho' hm
  obtain ⟨x, hx, rfl⟩ := List.mem_map.mp ho'
  rw [markCompletedFn_mtid] at hm
  rw [markCompletedFn_is_paid]
  exact (paid_after_mark db m x hx hm).1

/-- Closed form of the capture path: once the order is found and unpaid, the
handler marks it paid and proceeds by the `admin_price` / fiscal-item case
split of `payment_api.py` lines 288-369. -/
theorem completeAfterChecks_unpaid (db : List Order) (ct m p : String) (a : ℚ)
    (o : Order) (hfind : findOrderByMtid db m = some o) (hnp : ¬ (o.is_paid = 1)) :
    completeAfterChecks db ct m p a =
      match o.admin_price with
      | none => { db := db.map (markPaidFn m), error := -8 }
      | some ap =>
        if ap = 0 then { db := db.map (markPaidFn m), error := -8 }
        else
          match completeFiscalItem o.product o.quantity (ap * 100) with
          | none => { db := db.map (markPaidFn m), error := -10 }
          | some item =>
            { db := (db.map (markPaidFn m)).map (markCompletedFn m), error := 0,
              fiscalSubmitted := true, fiscalItems := [item],
              fiscalPaymentId := some ct, receivedEcash := some a,
              merchantConfirmId := some p } := by
  unfold completeAfterChecks
  rw [hfind]
  dsimp only
  rw [if_neg hnp]
  rw [find_markPaid db m o hfind]

/-- After the capture path has run (with or without the final `completed` write),
a retry of the same valid `complete` answers `-4` and performs nothing. -/
theorem complete_on_marked_minus4 (env : Env) (db : List Order) (r : CompleteReq)
    (o : Order) (hact : r.action = "1")
    (hsig : env.md5 (completeSignData env r) = r.sign_string)
    (hfind : findOrderByMtid db r.merchant_trans_id = some o) :
    complete env (db.map (markPaidFn r.merchant_trans_id)) r =
      { db := db.map (markPaidFn r.merchant_trans_id), error := -4 } ∧
    complete env
        ((db.map (markPaidFn r.merchant_trans_id)).map (markCompletedFn r.merchant_trans_id)) r =
      { db := (db.map (markPaidFn r.merchant_trans_id)).map
          (markCompletedFn r.merchant_trans_id), error := -4 } := by
  constructor
  · rw [complete_checks_pass env _ r hact hsig]
    unfold completeAfterChecks
    rw [find_markPaid db _ o hfind]
    dsimp only
    rw [if_pos rfl]
  · rw [complete_checks_pass env _ r hact hsig]
    unfold completeAfterChecks
    have h2 : findOrderByMtid
        ((db.map (markPaidFn r.merchant_trans_id)).map (markCompletedFn r.merchant_trans_id))
        r.merchant_trans_id =
        some (markCompletedFn r.merchant_trans_id
          { o with is_paid := 1, status := some "processing" }) := by
      rw [findOrderByMtid_map _ (markCompletedFn_mtid _) _ _,
        find_markPaid db _ o hfind, Option.map_some']
    rw [h2]
    dsimp only
    rw [if_pos (by rw [markCompletedFn_is_paid] :
      (markCompletedFn r.merchant_trans_id
        { o with is_paid := 1, status := some "processing" }).is_paid = 1)]

/-- Counterexample for C1: for an existing unpaid order whose `admin_price` is
`NULL`, two successive valid `complete` calls produce ZERO fiscal submissions
(first call fails with `-8` after flipping `is_paid`, retry answers `-4`), not
"exactly one" as the claim universally asserts. -/
theorem complete_double_call_cex :
    compM.action = "1" ∧
    envA.md5 (completeSignData envA compM) = compM.sign_string ∧
    (complete envA [{ ordM with admin_price := none }] compM).error = -8 ∧
    (complete envA [{ ordM with admin_price := none }] compM).fiscalSubmitted = false ∧
    (complete envA (complete envA [{ ordM with admin_price := none }] compM).db compM).error = -4 ∧
    (complete envA (complete envA [{ ordM with admin_price := none }] compM).db
      compM).fiscalSubmitted = false ∧
    findOrderByMtid (complete envA [{ ordM with admin_price := none }] compM).db "M" =
      some { ordM with admin_price := none, is_paid := 1, status := some "processing" } := by
  decide

/-- C1 as amended: a valid `complete` on an already-paid order answers `-4` with no
database write, no fiscal line-item and no submission.  For an existing unpaid
order, two successive valid `complete` calls submit fiscal data at most once —
exactly once precisely when the order has a non-null, non-zero `admin_price` and
its product/quantity yield a catalog fiscal item — `is_paid` transitions to 1 on
the first call for every row with that `merchant_trans_id`, and the second call
answers `-4` changing nothing. -/
theorem complete_second_call_rejected (env : Env) (db : List Order) (r : CompleteReq)
    (o : Order) (hact : r.action = "1")
    (hsig : env.md5 (completeSignData env r) = r.sign_string)
    (hfind : findOrderByMtid db r.merchant_trans_id = some o) :
    (o.is_paid = 1 → complete env db r = { db := db, error := -4 }) ∧
    (o.is_paid ≠ 1 →
      ((complete env db r).fiscalSubmitted = true ↔
        (∃ ap, o.admin_price = some ap ∧ ap ≠ 0 ∧
          completeFiscalItem o.product o.quantity (ap * 100) ≠ none)) ∧
      (∀ o' ∈ (complete env db r).db, o'.merchant_trans_id = some r.merchant_trans_id →
        o'.is_paid = 1) ∧
      complete env (complete env db r).db r =
        { db := (complete env db r).db, error := -4 }) := by
  constructor
  · intro hp
    rw [complete_checks_pass env db r hact hsig]
    unfold completeAfterChecks
    rw [hfind]
    dsimp only
    rw [if_pos hp]
  · intro hnp
    have hres := (complete_checks_pass env db r hact hsig).trans
      (completeAfterChecks_unpaid db r.click_trans_id r.merchant_trans_id
        r.merchant_prepare_id r.amount o hfind hnp)
    have hretry := complete_on_marked_minus4 env db r o hact hsig hfind
    cases hap : o.admin_price with
    | none =>
      rw [hap] at hres
      dsimp only at hres
      refine ⟨?_, ?_, ?_⟩
      · rw [hres]
        simp [hap]
      · rw [hres]
        exact fun o' h1 h2 => (paid_after_mark db r.merchant_trans_id o' h1 h2).1
      · rw [hres]
        exact hretry.1
    | some ap =>
      rw [hap] at hres
      dsimp only at hres
      by_cases hz : ap = 0
      · rw [if_pos hz] at hres
        refine ⟨?_, ?_, ?_⟩
        · rw [hres]
          subst hz
          simp [hap]
        · rw [hres]
          exact fun o' h1 h2 => (paid_after_mark db r.merchant_trans_id o' h1 h2).1
        · rw [hres]
          exact hretry.1
      · rw [if_neg hz] at hres
        cases hfi : completeFiscalItem o.product o.quantity (ap * 100) with
        | none =>
          rw [hfi] at hres
          refine ⟨?_, ?_, ?_⟩
          · rw [hres]
            constructor
            · intro h
              exact absurd h (by simp)
            · rintro ⟨ap', hap', hnz', hne'⟩
              injection hap' with hap'
              subst hap'
              exact absurd hfi hne'
          · rw [hres]
            exact fun o' h1 h2 => (paid_after_mark db r.merchant_trans_id o' h1 h2).1
          · rw [hres]
            exact hretry.1
        | some item =>
          rw [hfi] at hres
          refine ⟨?_, ?_, ?_⟩
          · rw [hres]
            constructor
            · intro _
              exact ⟨ap, rfl, hz, by simp [hfi]⟩
            · intro _
              rfl
          · rw [hres]
            exact paid_after_mark_completed db r.merchant_trans_id
          · rw [hres]
            exact hretry.2

/-- Witness for C1 (amended): on the priced fixture order the first valid
`complete` submits fiscal data, and the retry answers `-4` without touching the
table. -/
theorem complete_second_call_rejected_w :
    (complete envA [ordM] compM).fiscalSubmitted = true ∧
    complete envA (complete envA [ordM] compM).db compM =
      { db := (complete envA [ordM] compM).db, error := -4 } := by
  have h := (complete_second_call_rejected envA [ordM] compM ordM rfl (by decide)
    (by decide)).2 (by decide)
  exact ⟨h.1.mpr ⟨5, rfl, by decide, by decide⟩, h.2.2⟩

/-- C9: when a valid `complete` passes the signature, order-found and not-yet-paid
checks but then fails — `NULL`/zero `admin_price` (error `-8`) or no fiscal item
(error `-10`, e.g. product absent from the catalog) — the order has already been
set to `is_paid=1`, `status='processing'` and is not rolled back; the fiscal
submission never happens, the order never reaches `completed`, and a retry of
the same call answers `-4`. -/
theorem complete_error_after_paid_mark (env : Env) (db : List Order) (r : CompleteReq)
    (o : Order) (hact : r.action = "1")
    (hsig : env.md5 (completeSignData env r) = r.sign_string)
    (hfind : findOrderByMtid db r.merchant_trans_id = some o)
    (hnp : o.is_paid ≠ 1)
    (hfail : o.admin_price = none ∨ o.admin_price = some 0 ∨
      (∃ ap, o.admin_price = some ap ∧ ap ≠ 0 ∧
        completeFiscalItem o.product o.quantity (ap * 100) = none)) :
    (complete env db r).db = db.map (markPaidFn r.merchant_trans_id) ∧
    ((o.admin_price = none ∨ o.admin_price = some 0) → (complete env db r).error = -8) ∧
    ((∃ ap, o.admin_price = some ap ∧ ap ≠ 0 ∧
        completeFiscalItem o.product o.quantity (ap * 100) = none) →
      (complete env db r).error = -10) ∧
    (complete env db r).fiscalSubmitted = false ∧
    (complete env db r).fiscalItems = [] ∧
    (∀ o' ∈ (complete env db r).db, o'.merchant_trans_id = some r.merchant_trans_id →
      o'.is_paid = 1 ∧ o'.status = some "processing") ∧
    complete env (complete env db r).db r =
      { db := (complete env db r).db, error := -4 } := by
  have hres := (complete_checks_pass env db r hact hsig).trans
    (completeAfterChecks_unpaid db r.click_trans_id r.merchant_trans_id
      r.merchant_prepare_id r.amount o hfind hnp)
  have hretry := complete_on_marked_minus4 env db r o hact hsig hfind
  rcases hfail with hap | hap | ⟨ap, hap, hnz, hfi⟩
  · rw [hap] at hres
    dsimp only at hres
    rw [hres]
    refine ⟨rfl, fun _ => rfl, ?_, rfl, rfl, paid_after_mark db r.merchant_trans_id, hretry.1⟩
    rintro ⟨ap', hap', -, -⟩
    rw [hap] at hap'
    cases hap'
  · rw [hap] at hres
    dsimp only at hres
    rw [if_pos rfl] at hres
    rw [hres]
    refine ⟨rfl, fun _ => rfl, ?_, rfl, rfl, paid_after_mark db r.merchant_trans_id, hretry.1⟩
    rintro ⟨ap', hap', hnz', -⟩
    rw [hap] at hap'
    injection hap' with hap'
    exact absurd hap'.symm hnz'
  · rw [hap] at hres
    dsimp only at hres
    rw [if_neg hnz, hfi] at hres
    rw [hres]
    refine ⟨rfl, ?_, fun _ => rfl, rfl, rfl, paid_after_mark db r.merchant_trans_id, hretry.1⟩
    rintro (h8 | h8) <;> rw [hap] at h8
    · cases h8
    · injection h8 with h8
      exact absurd h8 hnz

/-- Witness for C9: the fixture order with `NULL` admin price is marked paid and
`processing` by the failing call, which answers `-8`; the retry answers `-4`. -/
theorem complete_error_after_paid_mark_w :
    (complete envA [{ ordM with admin_price := none }] compM).error = -8 ∧
    (complete envA [{ ordM with admin_price := none }] compM).db =
      [{ ordM with admin_price := none }].map (markPaidFn "M") ∧
    complete envA (complete envA [{ ordM with admin_price := none }] compM).db compM =
      { db := (complete envA [{ ordM with admin_price := none }] compM).db,
        error := -4 } := by
  have h := complete_error_after_paid_mark envA [{ ordM with admin_price := none }] compM
    { ordM with admin_price := none } rfl (by decide) (by decide) (by decide) (Or.inl rfl)
  exact ⟨h.2.1 (Or.inl rfl), h.1, h.2.2.2.2.2.2⟩

/-! ### C4 / C6 / C8 — the bot-side handlers -/

theorem awaitPaymentFn_oid (oid : Nat) (o : Order) :
    (awaitPaymentFn oid o).order_id = o.order_id := by
  unfold awaitPaymentFn; split <;> rfl

theorem awaitPaymentFn_admin_price (oid : Nat) (o : Order) :
    (awaitPaymentFn oid o).admin_price = o.admin_price := by
  unfold awaitPaymentFn; split <;> rfl

theorem awaitPaymentFn_quantity (oid : Nat) (o : Order) :
    (awaitPaymentFn oid o).quantity = o.quantity := by
  unfold awaitPaymentFn; split <;> rfl

theorem awaitPaymentFn_user_id (oid : Nat) (o : Order) :
    (awaitPaymentFn oid o).user_id = o.user_id := by
  unfold awaitPaymentFn; split <;> rfl

theorem setMtidFn_oid (oid : Nat) (u : String) (o : Order) :
    (setMtidFn oid u o).order_id = o.order_id := by
  unfold setMtidFn; split <;> rfl

theorem setAdminPriceFn_oid (oid : Nat) (v : ℚ) (o : Order) :
    (setAdminPriceFn oid v o).order_id = o.order_id := by
  unfold setAdminPriceFn; split <;> rfl

theorem setAdminPriceFn_quantity (oid : Nat) (v : ℚ) (o : Order) :
    (setAdminPriceFn oid v o).quantity = o.quantity := by
  unfold setAdminPriceFn; split <;> rfl

/-- `findOrderById` over a mapped table, for transformers preserving `order_id`. -/
theorem findOrderById_map (g : Order → Order)
    (hg : ∀ o, (g o).order_id = o.order_id) (db : List Order) (oid : Nat) :
    findOrderById (db.map g) oid = (findOrderById db oid).map g := by
  unfold findOrderById
  exact find?_map_eq g _ (fun o => by rw [hg]) db

/-- Closed form of `client_accept_order` on an order with both `admin_price` and
`quantity` present: status update, fresh `merchant_trans_id` write, and invoice
payload with `amount = admin_price * quantity` (major currency unit, no ×100). -/
theorem client_accept_reduce (db : List Order) (clients : List Client) (oid : Nat)
    (u : String) (o : Order) (ap : ℚ) (q : Int)
    (hfind : findOrderById db oid = some o)
    (hap : o.admin_price = some ap) (hq : o.quantity = some q) :
    client_accept_order db clients oid u =
      ((db.map (awaitPaymentFn oid)).map (setMtidFn oid u),
       .invoiceRequested u
         { merchant_trans_id := u, amount := ap * (q : ℚ),
           phone_number := clientPhone clients o.user_id }) := by
  unfold client_accept_order
  have h1 : findOrderById (db.map (awaitPaymentFn oid)) oid =
      some (awaitPaymentFn oid o) := by
    rw [findOrderById_map _ (awaitPaymentFn_oid oid) db oid, hfind, Option.map_some']
  dsimp only
  rw [h1]
  dsimp only
  rw [awaitPaymentFn_admin_price, awaitPaymentFn_quantity, awaitPaymentFn_user_id,
    hap, hq]

/-- Rows selected by `order_id` hold the freshly written `merchant_trans_id` after
`client_accept_order`. -/
theorem mtid_after_accept (db : List Order) (oid : Nat) (u : String) :
    ∀ o' ∈ (db.map (awaitPaymentFn oid)).map (setMtidFn oid u),
      o'.order_id = oid → o'.merchant_trans_id = some u := by
  intro o' ho' hoid
  obtain ⟨y, hy, rfl⟩ := List.mem_map.mp ho'
  obtain ⟨x, hx, rfl⟩ := List.mem_map.mp hy
  by_cases hb : (x.order_id == oid) = true
  · have hb2 : ((awaitPaymentFn oid x).order_id == oid) = true := by
      rw [awaitPaymentFn_oid]; exact hb
    unfold setMtidFn
    rw [if_pos hb2]
  · exfalso
    apply hb
    rw [beq_iff_eq]
    rw [setMtidFn_oid, awaitPaymentFn_oid] at hoid
    exact hoid

/-- Counterexample for C4: re-confirmation is not a guarded no-op — each call to
`client_accept_order` draws a fresh UUID and overwrites `merchant_trans_id`, so
the two calls yield two different ids ("u1" then "u2"), not one identical id. -/
theorem client_accept_two_uuids_cex :
    client_accept_order [{ ordM with merchant_trans_id := none }] [⟨10, some "998"⟩] 1 "u1" =
      ([{ ordM with merchant_trans_id := some "u1" }],
       .invoiceRequested "u1"
         { merchant_trans_id := "u1", amount := 10, phone_number := "998" }) ∧
    client_accept_order [{ ordM with merchant_trans_id := some "u1" }] [⟨10, some "998"⟩] 1 "u2" =
      ([{ ordM with merchant_trans_id := some "u2" }],
       .invoiceRequested "u2"
         { merchant_trans_id := "u2", amount := 10, phone_number := "998" }) ∧
    "u1" ≠ "u2" := by decide

/-- C4 as amended: `client_accept_order` generates a fresh `merchant_trans_id` on
every invocation, with no state guard: whenever the order exists with non-null
`admin_price` and `quantity`, the call unconditionally stores the fresh UUID as
the new `merchant_trans_id` (overwriting any previously assigned id) and requests
an invoice keyed by it — so re-confirmation regenerates the id rather than
reusing the first one. -/
theorem client_accept_overwrites_mtid (db : List Order) (clients : List Client)
    (oid : Nat) (u : String) (o : Order) (ap : ℚ) (q : Int)
    (hfind : findOrderById db oid = some o)
    (hap : o.admin_price = some ap) (hq : o.quantity = some q) :
    (∃ pl, (client_accept_order db clients oid u).2 = .invoiceRequested u pl ∧
      pl.merchant_trans_id = u) ∧
    (∀ o' ∈ (client_accept_order db clients oid u).1, o'.order_id = oid →
      o'.merchant_trans_id = some u) := by
  rw [client_accept_reduce db clients oid u o ap q hfind hap hq]
  exact ⟨⟨_, rfl, rfl⟩, mtid_after_accept db oid u⟩

/-- Witness for C4 (amended): called on an order already holding id "u1", the
handler overwrites it with the new fresh id "u2". -/
theorem client_accept_overwrites_mtid_w :
    (∃ pl, (client_accept_order [{ ordM with merchant_trans_id := some "u1" }]
        [⟨10, some "998"⟩] 1 "u2").2 = .invoiceRequested "u2" pl ∧
      pl.merchant_trans_id = "u2") ∧
    (∀ o' ∈ (client_accept_order [{ ordM with merchant_trans_id := some "u1" }]
        [⟨10, some "998"⟩] 1 "u2").1, o'.order_id = 1 →
      o'.merchant_trans_id = some "u2") :=
  client_accept_overwrites_mtid [{ ordM with merchant_trans_id := some "u1" }]
    [⟨10, some "998"⟩] 1 "u2" { ordM with merchant_trans_id := some "u1" } 5 2
    (by decide) rfl rfl

/-- Counterexample for C6: the only numeric gate is Python's `isdigit`, which
accepts "0" — a unit price of 0 (≤ 0) is not rejected: it is stored as
`admin_price` and the handler reports acceptance with total 0. -/
theorem price_zero_accepted_cex :
    isDigitString "0" = true ∧
    process_admin_price [{ ordM with admin_price := none, status := some "Ожидание суммы" }]
        (some 1) "0" =
      ([{ ordM with admin_price := some 0, status := some "Ожидание суммы" }],
       .accepted 0 0) := by
  decide

/-- C6 as amended: `process_admin_price` rejects with no state change exactly the
price texts that are not non-empty digit strings (hence every negative or
fractional price, but NOT "0", which is accepted and stored), and rejects with no
state change when the admin FSM holds no order id; on an accepted digit string it
stores the parsed value as the order's `admin_price` and computes
`total = price × quantity`.  The order's own status column is never consulted. -/
theorem process_admin_price_gate (db : List Order) (fsm : Option Nat) (t : String) :
    (isDigitString t = false → process_admin_price db fsm t = (db, .rejectedNonNumeric)) ∧
    (isDigitString t = true → fsm = none →
      process_admin_price db fsm t = (db, .missingOrderId)) ∧
    (∀ oid o q, isDigitString t = true → fsm = some oid → oid ≠ 0 →
      findOrderById db oid = some o → o.quantity = some q →
      process_admin_price db fsm t =
        (db.map (setAdminPriceFn oid ((digitsToNat t : ℕ) : ℚ)),
         .accepted ((digitsToNat t : ℕ) : ℚ)
           (((digitsToNat t : ℕ) : ℚ) * (q : ℚ)))) := by
  refine ⟨?_, ?_, ?_⟩
  · intro h
    unfold process_admin_price
    rw [if_pos (by simp [h])]
  · intro h hn
    subst hn
    unfold process_admin_price
    rw [if_neg (by simp [h])]
  · intro oid o q hdig hsome hne hfind hq
    subst hsome
    unfold process_admin_price
    rw [if_neg (by simp [hdig])]
    dsimp only
    rw [if_neg hne]
    have h1 : findOrderById (db.map (setAdminPriceFn oid ((digitsToNat t : ℕ) : ℚ))) oid =
        some (setAdminPriceFn oid ((digitsToNat t : ℕ) : ℚ) o) := by
      rw [findOrderById_map _ (setAdminPriceFn_oid oid _) db oid, hfind, Option.map_some']
    rw [h1]
    dsimp only
    rw [setAdminPriceFn_quantity, hq]

/-- Witness for C6 (amended): "-5" (not a digit string) is rejected without
touching the table, a missing FSM order id is rejected, and "7" is stored with
total 14 for quantity 2. -/
theorem process_admin_price_gate_w :
    process_admin_price [ordM] (some 1) "-5" = ([ordM], .rejectedNonNumeric) ∧
    process_admin_price [ordM] none "7" = ([ordM], .missingOrderId) ∧
    process_admin_price [ordM] (some 1) "7" =
      ([{ ordM with admin_price := some 7 }], .accepted 7 14) := by
  refine ⟨(process_admin_price_gate [ordM] (some 1) "-5").1 (by decide),
    (process_admin_price_gate [ordM] none "7").2.1 (by decide) rfl, ?_⟩
  have h := (process_admin_price_gate [ordM] (some 1) "7").2.2 1 ordM 2
    (by decide) rfl (by decide) (by decide) rfl
  rw [h]
  decide

/-- Counterexample for C8: the outbound invoice-creation call is NOT in the minor
currency unit — for admin price 5 and quantity 2 the payload carries
`amount = 10` (the major-unit total), not `5 × 2 × 100 = 1000`. -/
theorem invoice_amount_major_unit_cex :
    (client_accept_order [{ ordM with merchant_trans_id := none }]
        [⟨10, some "998"⟩] 1 "u1").2 =
      .invoiceRequested "u1"
        { merchant_trans_id := "u1", amount := 10, phone_number := "998" } ∧
    ({ ordM with merchant_trans_id := none } : Order).admin_price = some 5 ∧
    ({ ordM with merchant_trans_id := none } : Order).quantity = some 2 ∧
    (10 : ℚ) ≠ 5 * 2 * 100 := by
  decide

/-- C8 as amended: only the fiscal submission is converted to the minor unit —
`complete` submits `GoodPrice = admin_price × 100` and
`Price = admin_price × 100 × quantity` — while the invoice-creation amount is
sent in the major unit, `amount = admin_price × quantity`, with no ×100
conversion. -/
theorem gateway_unit_conversions (db : List Order) (clients : List Client) (oid : Nat)
    (u : String) (o : Order) (ap : ℚ) (q : Int)
    (hfind : findOrderById db oid = some o)
    (hap : o.admin_price = some ap) (hq : o.quantity = some q)
    (env : Env) (dbc : List Order) (r : CompleteReq) (oc : Order) (apc : ℚ)
    (item : FiscalItem)
    (hact : r.action = "1") (hsig : env.md5 (completeSignData env r) = r.sign_string)
    (hfc : findOrderByMtid dbc r.merchant_trans_id = some oc) (hnp : oc.is_paid ≠ 1)
    (hapc : oc.admin_price = some apc) (hnz : apc ≠ 0)
    (hitem : completeFiscalItem oc.product oc.quantity (apc * 100) = some item) :
    (∃ pl, (client_accept_order db clients oid u).2 = .invoiceRequested u pl ∧
      pl.amount = ap * (q : ℚ)) ∧
    (complete env dbc r).fiscalItems = [item] ∧
    item.GoodPrice = apc * 100 ∧
    (∀ qc : Int, oc.quantity = some qc → item.Price = apc * 100 * (qc : ℚ)) := by
  refine ⟨?_, ?_, ?_, ?_⟩
  · rw [client_accept_reduce db clients oid u o ap q hfind hap hq]
    exact ⟨_, rfl, rfl⟩
  · have hres := (complete_checks_pass env dbc r hact hsig).trans
      (completeAfterChecks_unpaid dbc r.click_trans_id r.merchant_trans_id
        r.merchant_prepare_id r.amount oc hfc hnp)
    rw [hapc] at hres
    dsimp only at hres
    rw [if_neg hnz, hitem] at hres
    rw [hres]
  · obtain ⟨name, qv, -, -, hcfi⟩ := completeFiscalItem_some _ _ _ _ hitem
    exact (create_fiscal_item_proj _ _ _ _ hcfi).2.1
  · intro qc hqc
    obtain ⟨name, qv, -, hqv, hcfi⟩ := completeFiscalItem_some _ _ _ _ hitem
    rw [hqv] at hqc
    injection hqc with hqc
    subst hqc
    exact (create_fiscal_item_proj _ _ _ _ hcfi).2.2.1

/-- Witness for C8 (amended): admin price 5, quantity 2 — invoice amount 10
(major unit) while the fiscal item carries `GoodPrice 500` and `Price 1000`
(minor unit). -/
theorem gateway_unit_conversions_w :
    (∃ pl, (client_accept_order [{ ordM with merchant_trans_id := none }]
        [⟨10, some "998"⟩] 1 "u1").2 = .invoiceRequested "u1" pl ∧ pl.amount = 10) ∧
    (complete envA [ordM] compM).fiscalItems =
      [{ Name := "Кружка", SPIC := "06912001036000000", PackageCode := "1184747",
         GoodPrice := 500, Price := 1000, Amount := 2, VAT := 107, VATPercent := 12,
         CommissionInfo := ⟨"307022362"⟩ }] := by
  have h := gateway_unit_conversions [{ ordM with merchant_trans_id := none }]
    [⟨10, some "998"⟩] 1 "u1" { ordM with merchant_trans_id := none } 5 2
    (by decide) rfl rfl envA [ordM] compM ordM 5
    { Name := "Кружка", SPIC := "06912001036000000", PackageCode := "1184747",
      GoodPrice := 500, Price := 1000, Amount := 2, VAT := 107, VATPercent := 12,
      CommissionInfo := ⟨"307022362"⟩ }
    rfl (by decide) (by decide) (by decide) rfl (by decide) (by decide)
  obtain ⟨pl, hpl, hamt⟩ := h.1
  exact ⟨⟨pl, hpl, by rw [hamt]; decide⟩, h.2.1⟩

end DiyCrafts
